import Mathlib

/-!
# Verification of the producthunt-mcp-research synchronization pipeline

Shallow embedding of the resumable, rate-limited synchronization pipeline of the
repository, together with theorems settling the specification claims about it.

The embedded parts and their sources:

* `Retry` — `src/fetcher/src/utils/retry.ts` (`retry`, the backoff delay formula,
  `RetryError`).
* `ErrorHandler` — `ProductHuntErrorHandler` (`handleError`, `handleGraphQLError`,
  `isNetworkError`, `shouldRetry`) together with the error classes of
  `utils/errors.ts` (`ApiError`, `NetworkError`, `AuthenticationError`,
  `RateLimitError`, all direct subclasses of `BaseError`).
* `RateLimit` — the token bucket of `utils/rate-limit.ts` (`refillTokens`,
  `waitForToken`).
* `Cursor` — `CursorManager` of `src/orchestrator/src/utils/cursor-manager.ts`
  (`loadCursors`/`saveCursors`/`updateCursor`), with the file writes it performs
  modelled as an explicit operation trace.
* `Sync` — the batch fetch loop of `src/orchestrator/src/commands/sync-posts.ts`
  (structurally identical to `sync-topics.ts` and `sync-collections.ts`), with
  the fetcher service and the repository save call modelled as an environment of
  call-indexed outcomes.
* `SyncAll` — the round-robin multi-entity loop of
  `src/orchestrator/src/commands/sync-all.ts`.

JavaScript numbers are modelled as `Nat` where the source only ever holds
non-negative integers, and as `ℚ` for the rate limiter's fractional token
arithmetic.  JavaScript truthiness of optional strings and numbers is modelled
explicitly (`cursorTruthy`, `orDefaultNat`).  Asynchrony plays no role: every
loop is single-threaded in the source, so it is embedded as a pure function,
with a fuel parameter for the `while` loops whose termination the source does
not guarantee.
-/

deriving instance DecidableEq for Except

namespace ProductHunt

/-! ## Shared helpers for JavaScript truthiness -/

/-- JavaScript truthiness of a `string | null | undefined` value: `null`,
`undefined` and the empty string are falsy (`cursor ?? null` followed by
`if (cursor)` in the source). -/
def cursorTruthy : Option String → Bool
  | some s => !s.isEmpty
  | none => false

/-- JavaScript `options.x || d` for an optional number: `undefined` and `0` both
fall back to the default (`0` is falsy). -/
def orDefaultNat (value : Option Nat) (d : Nat) : Nat :=
  match value with
  | some n => if n = 0 then d else n
  | none => d

namespace Retry

/-! ## Retry with exponential backoff — `src/fetcher/src/utils/retry.ts` -/

/-- `RetryConfig` of `src/fetcher/src/config/index.ts`, as consumed by `retry`. -/
structure RetryConfig where
  maxAttempts : Nat
  baseDelay : Nat
  maxDelay : Nat
  backoffMultiplier : Nat
deriving Repr, DecidableEq

/-- The payload of the `RetryError` thrown after the loop
(`new RetryError(message, config.maxAttempts, lastError)`). -/
structure RetryError (ε : Type) where
  attempts : Nat
  lastError : ε
deriving Repr, DecidableEq

/-- Observable outcome of one `retry(fn, config, shouldRetry)` invocation:
the returned value or thrown `RetryError`, the number of times `fn` was
invoked, and the backoff delays slept between attempts, in order. -/
structure RetryTrace (α ε : Type) where
  result : Except (RetryError ε) α
  calls : Nat
  delays : List Nat
deriving Repr, DecidableEq

/-- `delay = Math.min(config.baseDelay * Math.pow(config.backoffMultiplier, attempt - 1), config.maxDelay)`
(retry.ts lines 56-59). -/
def retryDelay (config : RetryConfig) (attempt : Nat) : Nat :=
  min (config.baseDelay * config.backoffMultiplier ^ (attempt - 1)) config.maxDelay

/-- The `for (let attempt = 1; attempt <= config.maxAttempts; attempt++)` loop of
`retry` (retry.ts lines 40-69).  `fn i` is the outcome of the `i`-th invocation
of the operation (1-indexed).  `remaining` is the number of loop iterations left
(`config.maxAttempts - attempt + 1` at entry); on loop exit the function throws
`RetryError` carrying `config.maxAttempts` and the last error. -/
def retryGo (config : RetryConfig) (fn : Nat → Except ε α) (shouldRetry : ε → Bool) :
    Nat → Nat → ε → RetryTrace α ε
  | 0, _, lastError => ⟨Except.error ⟨config.maxAttempts, lastError⟩, 0, []⟩
  | remaining + 1, attempt, _ =>
    match fn attempt with
    | Except.ok v => ⟨Except.ok v, 1, []⟩
    | Except.error e =>
      if attempt == config.maxAttempts || !shouldRetry e then
        ⟨Except.error ⟨config.maxAttempts, e⟩, 1, []⟩
      else
        let rest := retryGo config fn shouldRetry remaining (attempt + 1) e
        ⟨rest.result, rest.calls + 1, retryDelay config attempt :: rest.delays⟩

/-- `retry(fn, config, shouldRetry)`.  `initialError` is the
`let lastError: Error = new Error('Unknown error')` initialization. -/
def retryRun (config : RetryConfig) (fn : Nat → Except ε α) (shouldRetry : ε → Bool)
    (initialError : ε) : RetryTrace α ε :=
  retryGo config fn shouldRetry config.maxAttempts 1 initialError

/-- The spec's backoff test configuration
`{maxAttempts:5, baseDelay:100, maxDelay:1000, backoffMultiplier:2}`. -/
def backoffTestConfig : RetryConfig := ⟨5, 100, 1000, 2⟩

/-- An operation that fails on every invocation. -/
def alwaysFailFn : Nat → Except String Unit := fun _ => Except.error "boom"

end Retry

namespace ErrorHandler

/-! ## Error classification — `ProductHuntErrorHandler` and `utils/errors.ts` -/

/-- The `response` object of a GraphQL-request error
(`{status?: number, errors?: Array<{message: string}>}`); the GraphQL errors are
kept as their messages. -/
structure GraphQLResponseInfo where
  status : Option Nat
  errors : List String
deriving Repr, DecidableEq

/-- A raw failure as inspected by `handleError`: either a JavaScript `Error`
(with an optional GraphQL `response` attached and a message), or a thrown
non-`Error` value. -/
inductive RawError where
  | jsError (response : Option GraphQLResponseInfo) (message : String)
  | nonErrorValue (value : String)
deriving Repr, DecidableEq

/-- The classified error produced by `handleError`: one of the error classes of
`utils/errors.ts` that the handler constructs.  All four are direct subclasses
of `BaseError`; only `ApiError` carries a `statusCode`. -/
inductive HandledError where
  | apiError (message : String) (statusCode : Option Nat)
  | networkError (message : String)
  | authenticationError (message : String)
  | rateLimitError (message : String)
deriving Repr, DecidableEq

/-- `needle` occurs at the start of `haystack`. -/
def matchesAt : List Char → List Char → Bool
  | [], _ => true
  | _ :: _, [] => false
  | a :: as, b :: bs => a == b && matchesAt as bs

/-- `needle` occurs somewhere in `haystack`. -/
def includesChars (needle : List Char) : List Char → Bool
  | [] => needle.isEmpty
  | b :: bs => matchesAt needle (b :: bs) || includesChars needle bs

/-- `message.includes(keyword)` (JavaScript substring containment). -/
def includesKeyword (message keyword : String) : Bool :=
  includesChars keyword.toList message.toList

/-- `ProductHuntErrorHandler.isNetworkError`: the message contains `'fetch'`,
`'network'` or `'timeout'`. -/
def isNetworkError (message : String) : Bool :=
  includesKeyword message "fetch" || includesKeyword message "network" ||
    includesKeyword message "timeout"

/-- `ProductHuntErrorHandler.handleGraphQLError` (part of `handleError`):
status 401 → `AuthenticationError`, 429 → `RateLimitError`, a truthy status
≥ 500 → `ApiError('Server error', status)`, a non-empty `errors` array →
`ApiError` with the joined messages and the status, otherwise `ApiError` with
the original message and the status. -/
def handleGraphQLError (response : GraphQLResponseInfo) (message : String) : HandledError :=
  if response.status == some 401 then
    HandledError.authenticationError "Invalid API token"
  else if response.status == some 429 then
    HandledError.rateLimitError "Rate limit exceeded"
  else if response.status.any (fun s => decide (s ≠ 0) && decide (500 ≤ s)) then
    HandledError.apiError "Server error" response.status
  else if decide (0 < response.errors.length) then
    HandledError.apiError ("GraphQL errors: " ++ String.intercalate ", " response.errors)
      response.status
  else
    HandledError.apiError message response.status

/-- `ProductHuntErrorHandler.handleError`: an error with a truthy `response` goes
through `handleGraphQLError`; otherwise a message matching the network
heuristics becomes `NetworkError`; any other `Error` becomes
`ApiError(message, undefined, undefined)`; a non-`Error` value becomes
`ApiError('Unknown error occurred', undefined, undefined)`. -/
def handleError : RawError → HandledError
  | RawError.jsError (some response) message => handleGraphQLError response message
  | RawError.jsError none message =>
    if isNetworkError message then HandledError.networkError message
    else HandledError.apiError message none
  | RawError.nonErrorValue _ => HandledError.apiError "Unknown error occurred" none

/-- `ProductHuntErrorHandler.shouldRetry`: `NetworkError` and `ApiError` are
retried, except that an `ApiError` with a truthy `statusCode` in `[400, 500)` is
not and one with a truthy `statusCode` is retried exactly when it is ≥ 500;
`RateLimitError` is retried; `AuthenticationError` is not. -/
def shouldRetry : HandledError → Bool
  | HandledError.networkError _ => true
  | HandledError.apiError _ none => true
  | HandledError.apiError _ (some statusCode) =>
    if statusCode = 0 then true
    else if 400 ≤ statusCode ∧ statusCode < 500 then false
    else decide (500 ≤ statusCode)
  | HandledError.rateLimitError _ => true
  | HandledError.authenticationError _ => false

/-- A GraphQL-request error carrying an HTTP status. -/
def statusOnlyError (status : Nat) (message : String) (gqlErrors : List String) : RawError :=
  RawError.jsError (some ⟨some status, gqlErrors⟩) message

end ErrorHandler

end ProductHunt

namespace ProductHunt

open Retry ErrorHandler

/-! ## Claims C2–C5 -/

/-- **C3, counterexample.**  For
`{maxAttempts:5, baseDelay:100, maxDelay:1000, backoffMultiplier:2}` and an
always-failing operation, `retry` computes the delays `100, 200, 400, 800`
— four delays, not five: no delay is computed after the final attempt — and the
delay formula at attempt 5 evaluates to `1000` (capped at `maxDelay`), not
`800`.  So the claimed delay sequence `100, 200, 400, 800, 800` for attempts
1..5 is wrong on both counts. -/
theorem backoff_delays_counterexample :
    (retryRun backoffTestConfig alwaysFailFn (fun _ => true) "Unknown error").delays
        = [100, 200, 400, 800] ∧
    (retryRun backoffTestConfig alwaysFailFn (fun _ => true) "Unknown error").delays
        ≠ [100, 200, 400, 800, 800] ∧
    retryDelay backoffTestConfig 5 = 1000 := by decide

/-- **C3, amended.**  For
`{maxAttempts:5, baseDelay:100, maxDelay:1000, backoffMultiplier:2}` and an
always-failing operation, the delays computed before the re-attempts are exactly
`100, 200, 400, 800` (for attempts 1..4; the 5th attempt is the last, so no
delay follows it), each equal to
`min(baseDelay * backoffMultiplier^(attempt-1), maxDelay)`; the formula value at
attempt 5 would be `1000`, the `maxDelay` cap. -/
theorem backoff_delays :
    (retryRun backoffTestConfig alwaysFailFn (fun _ => true) "Unknown error").delays
        = [100, 200, 400, 800] ∧
    retryDelay backoffTestConfig 1 = 100 ∧
    retryDelay backoffTestConfig 2 = 200 ∧
    retryDelay backoffTestConfig 3 = 400 ∧
    retryDelay backoffTestConfig 4 = 800 ∧
    retryDelay backoffTestConfig 5 = 1000 := by decide

/-- Helper for C4: on an always-failing operation under an always-true retry
predicate, the retry loop performs exactly one invocation per remaining
iteration and ends with `RetryError` carrying `config.maxAttempts` and the
error of the final invocation. -/
theorem retryGo_all_fail {ε α : Type} (config : Retry.RetryConfig) (errs : Nat → ε)
    (p : ε → Bool) (hp : ∀ e, p e = true) :
    ∀ (remaining attempt : Nat) (d : ε),
      attempt + remaining = config.maxAttempts + 1 → 1 ≤ remaining →
      (Retry.retryGo config (fun i => Except.error (errs i)) p remaining attempt d
          : Retry.RetryTrace α ε).calls = remaining ∧
      (Retry.retryGo config (fun i => Except.error (errs i)) p remaining attempt d
          : Retry.RetryTrace α ε).result
        = Except.error ⟨config.maxAttempts, errs config.maxAttempts⟩ := by
  intro remaining
  induction remaining with
  | zero => intro attempt d _ h1; exact absurd h1 (by omega)
  | succ r ih =>
    intro attempt d hsum _
    rcases Nat.eq_zero_or_pos r with hr | hr
    · subst hr
      have ha : attempt = config.maxAttempts := by omega
      subst ha
      simp [Retry.retryGo]
    · have ha : attempt ≠ config.maxAttempts := by omega
      have hstep := ih (attempt + 1) (errs attempt) (by omega) hr
      simp only [Retry.retryGo, hp, Bool.not_true, Bool.or_false,
        beq_iff_eq, if_neg ha]
      exact ⟨by rw [hstep.1], hstep.2⟩

/-- **C4.**  For an operation that fails on every invocation and a retry
predicate that always returns true (the default when omitted), `retry` invokes
the operation exactly `config.maxAttempts` times and then raises a `RetryError`
carrying `attempts = config.maxAttempts` and the error of the last
invocation. -/
theorem retry_exhaustion {ε α : Type} (config : Retry.RetryConfig) (errs : Nat → ε)
    (p : ε → Bool) (d : ε) (hp : ∀ e, p e = true) (h : 1 ≤ config.maxAttempts) :
    (Retry.retryRun config (fun i => Except.error (errs i)) p d
        : Retry.RetryTrace α ε).calls = config.maxAttempts ∧
    (Retry.retryRun config (fun i => Except.error (errs i)) p d
        : Retry.RetryTrace α ε).result
      = Except.error ⟨config.maxAttempts, errs config.maxAttempts⟩ :=
  retryGo_all_fail config errs p hp config.maxAttempts 1 d (by omega) h

/-- Witness for C4 at the concrete configuration
`{maxAttempts:3, baseDelay:10, maxDelay:100, backoffMultiplier:2}` and a
constantly failing operation. -/
theorem retry_exhaustion_witness :
    (Retry.retryRun ⟨3, 10, 100, 2⟩ (fun _ => Except.error "boom") (fun _ => true)
        "Unknown error" : Retry.RetryTrace Unit String).calls = 3 ∧
    (Retry.retryRun ⟨3, 10, 100, 2⟩ (fun _ => Except.error "boom") (fun _ => true)
        "Unknown error" : Retry.RetryTrace Unit String).result
      = Except.error ⟨3, "boom"⟩ :=
  retry_exhaustion ⟨3, 10, 100, 2⟩ (fun _ => "boom") (fun _ => true) "Unknown error"
    (fun _ => rfl) (by decide)

/-- **C2, counterexample.**  A raw error with no HTTP status whose message
matches none of the network/timeout heuristics is classified as a generic
`ApiError` with no `statusCode` — the `Unknown` kind — but `shouldRetry`
returns `true` for it, not `false`: the claim that such errors are
non-retryable fails at the error message `"boom"`. -/
theorem unknown_error_retried_counterexample :
    handleError (RawError.jsError none "boom") = HandledError.apiError "boom" none ∧
    shouldRetry (handleError (RawError.jsError none "boom")) = true := by decide

/-- **C2, amended.**  A raw error with no HTTP status whose message matches none
of the network/timeout heuristics is classified as a generic `ApiError` with no
`statusCode`, and `shouldRetry` returns `true` for it: such unknown errors are
retried (until attempts are exhausted), not surfaced immediately. -/
theorem unknown_error_is_retried (message : String)
    (h : isNetworkError message = false) :
    handleError (RawError.jsError none message) = HandledError.apiError message none ∧
    shouldRetry (handleError (RawError.jsError none message)) = true := by
  simp [handleError, h, shouldRetry]

/-- Witness for C2 (amended) at the concrete message `"database exploded"`. -/
theorem unknown_error_is_retried_witness :
    handleError (RawError.jsError none "database exploded")
        = HandledError.apiError "database exploded" none ∧
    shouldRetry (handleError (RawError.jsError none "database exploded")) = true :=
  unknown_error_is_retried "database exploded" (by decide)

/-- **C5.**  For a GraphQL-request error carrying an HTTP status — whatever its
message and GraphQL error list — status 401 is classified `AuthenticationError`
(non-retryable), 429 `RateLimitError` (retryable), 503 `ApiError('Server
error', 503)` i.e. a retryable server error, and 404 an `ApiError` carrying
status 404 (non-retryable client error): `shouldRetry` returns `false`, `true`,
`true`, `false` respectively. -/
theorem classifier_status_mapping (message : String) (gqlErrors : List String) :
    handleError (statusOnlyError 401 message gqlErrors)
        = HandledError.authenticationError "Invalid API token" ∧
    shouldRetry (handleError (statusOnlyError 401 message gqlErrors)) = false ∧
    handleError (statusOnlyError 429 message gqlErrors)
        = HandledError.rateLimitError "Rate limit exceeded" ∧
    shouldRetry (handleError (statusOnlyError 429 message gqlErrors)) = true ∧
    handleError (statusOnlyError 503 message gqlErrors)
        = HandledError.apiError "Server error" (some 503) ∧
    shouldRetry (handleError (statusOnlyError 503 message gqlErrors)) = true ∧
    (∃ m, handleError (statusOnlyError 404 message gqlErrors)
        = HandledError.apiError m (some 404)) ∧
    shouldRetry (handleError (statusOnlyError 404 message gqlErrors)) = false := by
  unfold statusOnlyError handleError handleGraphQLError
  cases gqlErrors <;> simp [shouldRetry]

namespace RateLimit

/-! ## Token bucket — `src/fetcher/src/utils/rate-limit.ts` -/

/-- `RateLimitConfig` (`{requestsPerSecond, burstLimit}`).  JavaScript numbers
are modelled as rationals: the token count is fractional
(`requestsPerSecond` is 0.056 in the default configuration). -/
structure RateLimitConfig where
  requestsPerSecond : ℚ
  burstLimit : ℚ

/-- The limiter's mutable state.  `lastRefill` is not carried: the elapsed
time `Date.now() - this.lastRefill` of each attempt is an input instead. -/
structure RateLimiterState where
  tokens : ℚ

/-- The constructor: `this.tokens = config.burstLimit`. -/
def initialState (config : RateLimitConfig) : RateLimiterState :=
  ⟨config.burstLimit⟩

/-- `refillTokens`: add `(timePassed / 1000) * requestsPerSecond` tokens,
capped at `burstLimit`. -/
def refillTokens (config : RateLimitConfig) (st : RateLimiterState)
    (timePassedMs : ℚ) : RateLimiterState :=
  ⟨min config.burstLimit (st.tokens + timePassedMs / 1000 * config.requestsPerSecond)⟩

/-- One acquisition attempt of `waitForToken`: refill, then consume a token if
at least one is available (`if (this.tokens >= 1) { this.tokens -= 1; ... }`),
otherwise leave the bucket unchanged and report failure (the source then
sleeps and retries, which appears here as the next attempt with its own
elapsed time). -/
def acquireAttempt (config : RateLimitConfig) (st : RateLimiterState)
    (timePassedMs : ℚ) : RateLimiterState × Bool :=
  let refilled := refillTokens config st timePassedMs
  if 1 ≤ refilled.tokens then (⟨refilled.tokens - 1⟩, true) else (refilled, false)

/-- A sequence of acquisition attempts with the given elapsed times between
them (covering any interleaving of `acquire()` calls and internal retries). -/
def acquireRun (config : RateLimitConfig) (elapsed : List ℚ)
    (st : RateLimiterState) : RateLimiterState :=
  elapsed.foldl (fun s e => (acquireAttempt config s e).1) st

/-- The token-bucket invariant `0 ≤ tokens ≤ burstLimit`. -/
def TokensInvariant (config : RateLimitConfig) (st : RateLimiterState) : Prop :=
  0 ≤ st.tokens ∧ st.tokens ≤ config.burstLimit

end RateLimit

/-! ## Claim C6 -/

/-- Helper for C6: a refill preserves the token bound (it never lifts the count
above `burstLimit`, and with non-negative elapsed time and rate it never drops
it below zero). -/
theorem refillTokens_invariant (config : RateLimit.RateLimitConfig)
    (st : RateLimit.RateLimiterState) (e : ℚ)
    (hrate : 0 ≤ config.requestsPerSecond) (hburst : 0 ≤ config.burstLimit)
    (he : 0 ≤ e) (hst : RateLimit.TokensInvariant config st) :
    RateLimit.TokensInvariant config (RateLimit.refillTokens config st e) := by
  constructor
  · exact le_min hburst
      (add_nonneg hst.1 (mul_nonneg (div_nonneg he (by norm_num)) hrate))
  · exact min_le_left _ _

/-- Helper for C6: one acquisition attempt (refill plus conditional
consumption) preserves the token bound. -/
theorem acquireAttempt_invariant (config : RateLimit.RateLimitConfig)
    (st : RateLimit.RateLimiterState) (e : ℚ)
    (hrate : 0 ≤ config.requestsPerSecond) (hburst : 0 ≤ config.burstLimit)
    (he : 0 ≤ e) (hst : RateLimit.TokensInvariant config st) :
    RateLimit.TokensInvariant config (RateLimit.acquireAttempt config st e).1 := by
  have hre := refillTokens_invariant config st e hrate hburst he hst
  by_cases hone : 1 ≤ (RateLimit.refillTokens config st e).tokens
  · have heq : (RateLimit.acquireAttempt config st e).1
        = ⟨(RateLimit.refillTokens config st e).tokens - 1⟩ := by
      unfold RateLimit.acquireAttempt
      simp [hone]
    rw [heq]
    exact ⟨by simp only; linarith, by simp only; linarith [hre.2]⟩
  · have heq : (RateLimit.acquireAttempt config st e).1
        = RateLimit.refillTokens config st e := by
      unfold RateLimit.acquireAttempt
      simp [hone]
    rw [heq]
    exact hre

/-- Helper for C6: any sequence of acquisition attempts with non-negative
elapsed times preserves the token bound. -/
theorem acquireRun_invariant (config : RateLimit.RateLimitConfig)
    (elapsed : List ℚ) (st : RateLimit.RateLimiterState)
    (hrate : 0 ≤ config.requestsPerSecond) (hburst : 0 ≤ config.burstLimit)
    (hes : ∀ e ∈ elapsed, 0 ≤ e) (hst : RateLimit.TokensInvariant config st) :
    RateLimit.TokensInvariant config (RateLimit.acquireRun config elapsed st) := by
  induction elapsed generalizing st with
  | nil => exact hst
  | cons e rest ih =>
    exact ih _ (fun x hx => hes x (List.mem_cons_of_mem e hx))
      (acquireAttempt_invariant config st e hrate hburst
        (hes e (List.mem_cons_self e rest)) hst)

/-- **C6.**  Starting from the constructor state, for every sequence of
token-acquisition attempts with arbitrary non-negative elapsed times between
them, the token count satisfies `0 ≤ tokens ≤ burstLimit` after every attempt
(every prefix of the sequence), and also after the refill step of a further
attempt: refills are capped at `burstLimit` and a token is consumed only when
at least one is available. -/
theorem rate_limiter_token_bound (config : RateLimit.RateLimitConfig)
    (elapsed : List ℚ) (n : Nat) (e : ℚ)
    (hrate : 0 ≤ config.requestsPerSecond) (hburst : 0 ≤ config.burstLimit)
    (hes : ∀ x ∈ elapsed, 0 ≤ x) (he : 0 ≤ e) :
    RateLimit.TokensInvariant config
      (RateLimit.acquireRun config (elapsed.take n) (RateLimit.initialState config)) ∧
    RateLimit.TokensInvariant config
      (RateLimit.refillTokens config
        (RateLimit.acquireRun config (elapsed.take n) (RateLimit.initialState config)) e) := by
  have hinit : RateLimit.TokensInvariant config (RateLimit.initialState config) :=
    ⟨hburst, le_refl _⟩
  have hrun := acquireRun_invariant config (elapsed.take n)
    (RateLimit.initialState config) hrate hburst
    (fun x hx => hes x (List.take_subset n elapsed hx)) hinit
  exact ⟨hrun, refillTokens_invariant config _ e hrate hburst he hrun⟩

/-- Witness for C6 at `requestsPerSecond = 1/2`, `burstLimit = 3`, the elapsed
times `[1000, 0, 4000]`, prefix length 2 and a further refill after 500ms. -/
theorem rate_limiter_token_bound_witness :
    RateLimit.TokensInvariant ⟨1/2, 3⟩
      (RateLimit.acquireRun ⟨1/2, 3⟩ ([1000, 0, 4000].take 2)
        (RateLimit.initialState ⟨1/2, 3⟩)) :=
  (rate_limiter_token_bound ⟨1/2, 3⟩ [1000, 0, 4000] 2 500 (by norm_num) (by norm_num)
    (by intro x hx; fin_cases hx <;> norm_num) (by norm_num)).1

namespace Cursor

/-! ## Cursor persistence — `src/orchestrator/src/utils/cursor-manager.ts` -/

/-- The persisted `CursorState`: one optional cursor per entity type plus a
`lastUpdated` timestamp (an opaque ISO string here). -/
structure CursorState where
  topics : Option String
  collections : Option String
  posts : Option String
  lastUpdated : String
deriving Repr, DecidableEq

/-- The entity-type keys of the cursor file
(`'topics' | 'collections' | 'posts'`). -/
inductive CursorKey where
  | topics
  | collections
  | posts
deriving Repr, DecidableEq

/-- Read one key of the state. -/
def cursorGet (st : CursorState) : CursorKey → Option String
  | CursorKey.topics => st.topics
  | CursorKey.collections => st.collections
  | CursorKey.posts => st.posts

/-- The empty state `{ lastUpdated: new Date().toISOString() }` that
`updateCursor` starts from when `loadCursors` reports no file. -/
def emptyCursorState (now : String) : CursorState :=
  ⟨none, none, none, now⟩

/-- The key mutation of `updateCursor`: `if (cursor) { currentCursors[type] =
cursor } else { delete currentCursors[type] }` on top of the loaded state (or
the fresh empty state). -/
def updateCursorState (current : Option CursorState) (now : String)
    (key : CursorKey) (cursor : Option String) : CursorState :=
  let st := current.getD (emptyCursorState now)
  match key with
  | CursorKey.topics =>
    { st with topics := if cursorTruthy cursor then cursor else none }
  | CursorKey.collections =>
    { st with collections := if cursorTruthy cursor then cursor else none }
  | CursorKey.posts =>
    { st with posts := if cursorTruthy cursor then cursor else none }

/-- The stamping done by `saveCursors`:
`{...cursors, lastUpdated: new Date().toISOString()}`. -/
def stampLastUpdated (cursors : CursorState) (now : String) : CursorState :=
  { cursors with lastUpdated := now }

/-- A file operation on the durable cursor file, as issued by the manager (or
by the write-then-replace discipline the spec describes). -/
inductive FileOp where
  | writeTarget (st : CursorState)
  | writeTemp (st : CursorState)
  | renameTempToTarget
deriving Repr, DecidableEq

/-- What the durable cursor file can hold: nothing yet, a completely written
state, or the truncated residue of a write that stopped after `chars`
characters of the serialized state. -/
inductive FileContent where
  | missing
  | complete (st : CursorState)
  | truncated (st : CursorState) (chars : Nat)
deriving Repr, DecidableEq

/-- The file system as seen through the cursor file: the durable target path
and an optional fully written temporary file. -/
structure FsState where
  target : FileContent
  temp : Option CursorState
deriving Repr, DecidableEq

/-- Effect of one completed file operation. -/
def applyOp (fs : FsState) : FileOp → FsState
  | FileOp.writeTarget st => { fs with target := FileContent.complete st }
  | FileOp.writeTemp st => { fs with temp := some st }
  | FileOp.renameTempToTarget =>
    match fs.temp with
    | some st => ⟨FileContent.complete st, none⟩
    | none => fs

/-- Effect of an operation that fails midway: a direct write to the target
leaves a truncated copy there; a failed write to the temporary file never
touches the target; a rename is atomic, so a failed rename leaves the target
as it was. -/
def failDuringOp (fs : FsState) : FileOp → Nat → FsState
  | FileOp.writeTarget st, cut => { fs with target := FileContent.truncated st cut }
  | FileOp.writeTemp _, _ => fs
  | FileOp.renameTempToTarget, _ => fs

/-- Run a list of file operations, failing during the operation at index
`failAt` (if the list is that long) after `cut` characters. -/
def runOpsWithFailure : List FileOp → FsState → Nat → Nat → FsState
  | [], fs, _, _ => fs
  | op :: _, fs, 0, cut => failDuringOp fs op cut
  | op :: rest, fs, failAt + 1, cut => runOpsWithFailure rest (applyOp fs op) failAt cut

/-- The file operations issued by `saveCursors(cursors)`: a single direct
`fs.writeFile(this.cursorFile, JSON.stringify(...))` of the stamped state onto
the durable path (the `fs.mkdir` of the data directory does not touch the
file). -/
def saveCursorsOps (cursors : CursorState) (now : String) : List FileOp :=
  [FileOp.writeTarget (stampLastUpdated cursors now)]

/-- Write-then-replace as the spec words it: write the new state to a
temporary file, then atomically rename it over the durable path.  This
definition follows the spec's words, not the source, and exists to be compared
with `saveCursorsOps`. -/
def saveCursorsOpsSpec (cursors : CursorState) (now : String) : List FileOp :=
  [FileOp.writeTemp (stampLastUpdated cursors now), FileOp.renameTempToTarget]

/-- The file operations issued by `updateCursor(type, cursor)`: load the
current state (or start empty), set or delete the key, then `saveCursors`. -/
def updateCursorOps (current : Option CursorState) (now : String)
    (key : CursorKey) (cursor : Option String) : List FileOp :=
  saveCursorsOps (updateCursorState current now key cursor) now

end Cursor

/-! ## Claim C7 -/

/-- **C7, counterexample.**  `updateCursor` writes the new state back with a
single direct overwrite of the durable cursor file, not write-then-replace: if
that write fails midway (here: during operation 0, after 3 characters), the
previous durable copy `old` is destroyed — the target holds a truncated
residue — whereas under the spec's write-then-replace discipline
(`saveCursorsOpsSpec`) the previous durable copy survives a failure during
either operation. -/
theorem cursor_save_not_atomic_counterexample :
    (Cursor.runOpsWithFailure
        (Cursor.updateCursorOps
          (some ⟨some "t-old", none, some "p-old", "2024-01-01"⟩) "2024-01-02"
          Cursor.CursorKey.posts (some "p-new"))
        ⟨Cursor.FileContent.complete ⟨some "t-old", none, some "p-old", "2024-01-01"⟩, none⟩
        0 3).target
      ≠ Cursor.FileContent.complete ⟨some "t-old", none, some "p-old", "2024-01-01"⟩ ∧
    (Cursor.runOpsWithFailure
        (Cursor.saveCursorsOpsSpec
          (Cursor.updateCursorState
            (some ⟨some "t-old", none, some "p-old", "2024-01-01"⟩) "2024-01-02"
            Cursor.CursorKey.posts (some "p-new")) "2024-01-02")
        ⟨Cursor.FileContent.complete ⟨some "t-old", none, some "p-old", "2024-01-01"⟩, none⟩
        0 3).target
      = Cursor.FileContent.complete ⟨some "t-old", none, some "p-old", "2024-01-01"⟩ ∧
    (Cursor.runOpsWithFailure
        (Cursor.saveCursorsOpsSpec
          (Cursor.updateCursorState
            (some ⟨some "t-old", none, some "p-old", "2024-01-01"⟩) "2024-01-02"
            Cursor.CursorKey.posts (some "p-new")) "2024-01-02")
        ⟨Cursor.FileContent.complete ⟨some "t-old", none, some "p-old", "2024-01-01"⟩, none⟩
        1 3).target
      = Cursor.FileContent.complete ⟨some "t-old", none, some "p-old", "2024-01-01"⟩ := by
  decide

/-- **C7, amended.**  `updateCursor(entityKey, cursor | absent)` loads the
current state (or starts empty), sets the key when the cursor is truthy and
deletes it otherwise, leaves the other keys unchanged, and stamps
`lastUpdated` — but it writes the new state back with a single direct
overwrite of the durable cursor file, not write-then-replace: a failure midway
through that write leaves a truncated copy of the new state, not the previous
durable state. -/
theorem cursor_update_behavior (current : Option Cursor.CursorState)
    (now : String) (key : Cursor.CursorKey) (cursor : Option String)
    (old newState : Cursor.CursorState) (cut : Nat) :
    Cursor.cursorGet (Cursor.updateCursorState current now key cursor) key
        = (if cursorTruthy cursor then cursor else none) ∧
    (∀ k, k ≠ key →
      Cursor.cursorGet (Cursor.updateCursorState current now key cursor) k
        = Cursor.cursorGet (current.getD (Cursor.emptyCursorState now)) k) ∧
    (Cursor.stampLastUpdated (Cursor.updateCursorState current now key cursor) now).lastUpdated
        = now ∧
    (Cursor.runOpsWithFailure (Cursor.saveCursorsOps newState now)
        ⟨Cursor.FileContent.complete old, none⟩ 0 cut).target
      = Cursor.FileContent.truncated (Cursor.stampLastUpdated newState now) cut ∧
    (Cursor.runOpsWithFailure (Cursor.saveCursorsOps newState now)
        ⟨Cursor.FileContent.complete old, none⟩ 0 cut).target
      ≠ Cursor.FileContent.complete old := by
  refine ⟨?_, ?_, rfl, rfl, by simp [Cursor.runOpsWithFailure, Cursor.failDuringOp]⟩
  · cases key <;> simp [Cursor.updateCursorState, Cursor.cursorGet]
  · intro k hk
    cases key <;> cases k <;> simp_all [Cursor.updateCursorState, Cursor.cursorGet]

/-- Witness for C7 (amended) at a concrete update of the `topics` key. -/
theorem cursor_update_behavior_witness :
    Cursor.cursorGet
        (Cursor.updateCursorState (some ⟨none, some "c0", none, "old-stamp"⟩)
          "new-stamp" Cursor.CursorKey.topics (some "t1")) Cursor.CursorKey.topics
      = (if cursorTruthy (some "t1") then some "t1" else none) :=
  (cursor_update_behavior (some ⟨none, some "c0", none, "old-stamp"⟩) "new-stamp"
    Cursor.CursorKey.topics (some "t1") ⟨none, none, none, "x"⟩
    ⟨none, none, none, "y"⟩ 2).1

namespace Sync

/-! ## Single-entity batch fetch loop — `src/orchestrator/src/commands/sync-posts.ts`

`sync-topics.ts` and `sync-collections.ts` differ only in their defaults and
per-entity statistics fields; the loop structure, the fetch/save/cursor steps
and the error handling are identical, so one embedding covers the shape shared
by all three. -/

/-- The `SyncOptions` fields the loop reads: `cursor`, `maxItems`,
`batchSize`. -/
structure SyncOptions where
  cursor : Option String
  maxItems : Option Nat
  batchSize : Option Nat
deriving Repr, DecidableEq

/-- The `FetchResult` fields the loop reads: `data` (item identifiers),
`hasMore` and `nextCursor`. -/
structure FetchResult where
  data : List String
  hasMore : Bool
  nextCursor : Option String
deriving Repr, DecidableEq

/-- The save-result field the loop reads: `saveResult.data.total`. -/
structure SaveResult where
  total : Nat
deriving Repr, DecidableEq

/-- The `SyncStats` fields the loop mutates (timing and per-entity counters are
omitted; `nextCursor` mirrors `stats.nextCursor = cursor ?? undefined`). -/
structure SyncStats where
  totalFetched : Nat
  totalSaved : Nat
  errors : Nat
  nextCursor : Option String
deriving Repr, DecidableEq

/-- The external collaborators of one sync run: the outcome of the `n`-th
`fetcher.service.fetchPosts` call and of the `n`-th
`repository.repository.savePosts` call (both 0-indexed). -/
structure SyncEnv where
  fetchResult : Nat → Except String FetchResult
  saveResult : Nat → Except String SaveResult

/-- How one sync run ended: normal completion with the final statistics, an
early `failure(...)` return on a fetch error, or fuel exhaustion (the source's
`while` loop has no iteration bound of its own). -/
inductive SyncOutcome where
  | ok (stats : SyncStats)
  | fail (message : String)
  | outOfFuel
deriving Repr, DecidableEq

/-- Observable behaviour of one sync run: the outcome, the arguments
`(batchSize, startCursor)` of every fetch call in order, and the cursors passed
to `cursorManager.updateCursor` in order. -/
structure SyncRun where
  outcome : SyncOutcome
  fetchCalls : List (Nat × Option String)
  cursorSaves : List String
deriving Repr, DecidableEq

/-- The `while (hasMore && stats.totalFetched < maxItems)` loop of `syncPosts`
(sync-posts.ts lines 60-125): fetch one batch of size
`min(batchSize, maxItems - stats.totalFetched)` from the current cursor; a
fetch failure returns `failure` immediately; an empty batch breaks; otherwise
the batch is saved — on success `totalSaved` and `totalFetched` grow, on
failure only `stats.errors` is incremented — then the cursor advances to the
page's `nextCursor`, `hasMore` is updated, and a truthy cursor is durably
saved via `updateCursor` before the next iteration. -/
def syncLoopGo (env : SyncEnv) (maxItems batchSize : Nat) :
    Nat → SyncStats → Option String → Bool → Nat → Nat →
    List (Nat × Option String) → List String → SyncRun
  | 0, _, _, _, _, _, fetchCalls, cursorSaves =>
    ⟨SyncOutcome.outOfFuel, fetchCalls, cursorSaves⟩
  | fuel + 1, stats, cursor, hasMore, fetchIdx, saveIdx, fetchCalls, cursorSaves =>
    if hasMore ∧ stats.totalFetched < maxItems then
      let callArg := min batchSize (maxItems - stats.totalFetched)
      let fetchCalls := fetchCalls ++ [(callArg, cursor)]
      match env.fetchResult fetchIdx with
      | Except.error e =>
        ⟨SyncOutcome.fail ("Failed to fetch posts: " ++ e), fetchCalls, cursorSaves⟩
      | Except.ok page =>
        if page.data.length = 0 then
          ⟨SyncOutcome.ok stats, fetchCalls, cursorSaves⟩
        else
          let stats1 :=
            match env.saveResult saveIdx with
            | Except.ok save =>
              { stats with
                totalSaved := stats.totalSaved + save.total,
                totalFetched := stats.totalFetched + page.data.length }
            | Except.error _ => { stats with errors := stats.errors + 1 }
          let stats2 := { stats1 with nextCursor := page.nextCursor }
          let cursorSaves :=
            match page.nextCursor with
            | some s => if s.isEmpty then cursorSaves else cursorSaves ++ [s]
            | none => cursorSaves
          syncLoopGo env maxItems batchSize fuel stats2 page.nextCursor page.hasMore
            (fetchIdx + 1) (saveIdx + 1) fetchCalls cursorSaves
    else
      ⟨SyncOutcome.ok stats, fetchCalls, cursorSaves⟩

/-- `syncPosts(fetcher, repository, options, logger)`: the initial cursor is
`options.cursor ?? null` — the persisted cursor store is not consulted —
`maxItems` defaults to 100 and `batchSize` to 5 (`||`, so an explicit 0 also
falls back), and the loop starts with `hasMore = true` and zeroed
statistics. -/
def syncPosts (env : SyncEnv) (options : SyncOptions) (fuel : Nat) : SyncRun :=
  syncLoopGo env (orDefaultNat options.maxItems 100) (orDefaultNat options.batchSize 5)
    fuel ⟨0, 0, 0, none⟩ options.cursor true 0 0 [] []

/-- The initial-cursor resolution as the spec words it: the explicit override
from the options when given, otherwise the last persisted cursor for the
entity key, otherwise absent.  This definition follows the spec's words, not
the source, and exists to be compared with the behaviour of `syncPosts`. -/
def specInitialCursor (options : SyncOptions) (persisted : Option String) :
    Option String :=
  match options.cursor with
  | some c => some c
  | none => persisted

/-- An environment whose first fetch immediately reports an empty final page
and whose saves all succeed vacuously. -/
def emptyPageEnv : SyncEnv :=
  ⟨fun _ => Except.ok ⟨[], false, none⟩, fun _ => Except.ok ⟨0⟩⟩

end Sync

/-! ## Claims C1 and C8 -/

/-- **C1.**  Evaluation at the failing input: with no explicit cursor override
and a persisted cursor `"saved-posts-cursor"` for the entity key, a
single-entity sync issues its first fetch from the beginning (`startCursor`
absent) — `syncPosts` reads `options.cursor ?? null` and never consults the
cursor store — whereas the documented resolution (explicit override, else last
persisted cursor, else absent) yields `"saved-posts-cursor"`. -/
theorem sync_initial_cursor_code_bug :
    (Sync.syncPosts Sync.emptyPageEnv ⟨none, none, none⟩ 2).fetchCalls
      = [(5, none)] ∧
    Sync.specInitialCursor ⟨none, none, none⟩ (some "saved-posts-cursor")
      = some "saved-posts-cursor" ∧
    (none : Option String) ≠ some "saved-posts-cursor" := by decide

/-- An environment with three pages — the third one final — whose second
repository save fails and whose other saves succeed. -/
def threePageEnv (i1 i2 i3 : List String) (c1 c2 : String) (t1 t3 : Nat)
    (m : String) : Sync.SyncEnv :=
  ⟨fun n =>
      if n = 0 then Except.ok ⟨i1, true, some c1⟩
      else if n = 1 then Except.ok ⟨i2, true, some c2⟩
      else Except.ok ⟨i3, false, none⟩,
   fun n =>
      if n = 0 then Except.ok ⟨t1⟩
      else if n = 1 then Except.error m
      else Except.ok ⟨t3⟩⟩

/-- **C8.**  When the persist callback fails on page 2 of 3 while every fetch
succeeds, the sync loop increments `stats.errors` by exactly one, excludes that
page's items from `stats.totalSaved` (and its count from `totalFetched`),
still durably saves the cursor past that page (`updateCursor` receives
`c1, c2`), and continues to the third page rather than aborting (three fetch
calls, normal completion). -/
theorem persist_failure_continues (i1 i2 i3 : List String) (c1 c2 : String)
    (t1 t3 : Nat) (m : String)
    (h1 : i1 ≠ []) (h2 : i2 ≠ []) (h3 : i3 ≠ [])
    (hc1 : ¬c1.isEmpty) (hc2 : ¬c2.isEmpty)
    (hmax : i1.length < 100) :
    Sync.syncPosts (threePageEnv i1 i2 i3 c1 c2 t1 t3 m) ⟨none, none, none⟩ 4
      = ⟨Sync.SyncOutcome.ok ⟨i1.length + i3.length, t1 + t3, 1, none⟩,
         [(5, none), (min 5 (100 - i1.length), some c1),
          (min 5 (100 - i1.length), some c2)],
         [c1, c2]⟩ := by
  have hl1 : ¬i1.length = 0 := fun h => h1 (List.length_eq_zero.1 h)
  have hl2 : ¬i2.length = 0 := fun h => h2 (List.length_eq_zero.1 h)
  have hl3 : ¬i3.length = 0 := fun h => h3 (List.length_eq_zero.1 h)
  simp [Sync.syncPosts, Sync.syncLoopGo, threePageEnv, orDefaultNat,
    hl1, hl2, hl3, hc1, hc2, hmax]

/-- Witness for C8 at the spec's concrete scenario: pages `[a,b]`, `[c,d]`,
`[e]`, save totals 2 and 1, the second save failing. -/
theorem persist_failure_continues_witness :
    Sync.syncPosts (threePageEnv ["a", "b"] ["c", "d"] ["e"] "c1" "c2" 2 1 "db down")
        ⟨none, none, none⟩ 4
      = ⟨Sync.SyncOutcome.ok ⟨3, 3, 1, none⟩,
         [(5, none), (min 5 98, some "c1"), (min 5 98, some "c2")],
         ["c1", "c2"]⟩ :=
  persist_failure_continues ["a", "b"] ["c", "d"] ["e"] "c1" "c2" 2 1 "db down"
    (by decide) (by decide) (by decide) (by decide) (by decide) (by decide)

namespace SyncAll

/-! ## Multi-entity round robin — `src/orchestrator/src/commands/sync-all.ts`

The three per-type cursor/counter variables (`topicsCursor`, `topicsFetched`,
…) are modelled as functions from the three-element entity type, and the three
structurally identical per-type blocks of the round as one `entityStep`
parameterized by the entity. -/

/-- The three synchronized entity types. -/
inductive Entity where
  | topics
  | collections
  | posts
deriving Repr, DecidableEq

/-- The external collaborators of `syncAll`: the outcome of the `n`-th
invocation (0-indexed, per type) of the individual sync function for an entity
type, as the `SyncStats` it returns or the error of its `failure` result. -/
structure AllEnv where
  subResult : Entity → Nat → Except String Sync.SyncStats

/-- The loop state of `syncAll`: the aggregated statistics, the per-type
cursor and fetched-count variables, a per-type invocation counter for
indexing into the environment, the trace of sub-sync calls `(entity,
succeeded)`, and the trace of `cursorManager.updateCursor` writes. -/
structure AllState where
  totalFetched : Nat
  totalSaved : Nat
  errors : Nat
  cursor : Entity → Option String
  fetched : Entity → Nat
  subCalls : Entity → Nat
  calls : List (Entity × Bool)
  cursorWrites : List (Entity × Option String)

/-- Pointwise update of a per-entity map. -/
def setEntity {β : Type} (f : Entity → β) (t : Entity) (v : β) : Entity → β :=
  fun x => if x = t then v else f x

/-- `savedCursors?.topics` and friends: the initial per-type cursor taken from
the loaded cursor state (absent when no cursor file exists). -/
def savedCursorOf (saved : Option Cursor.CursorState) (t : Entity) : Option String :=
  match saved, t with
  | none, _ => none
  | some s, Entity.topics => s.topics
  | some s, Entity.collections => s.collections
  | some s, Entity.posts => s.posts

/-- The state at loop entry: zeroed statistics and counters, cursors from the
loaded cursor state. -/
def initAllState (saved : Option Cursor.CursorState) : AllState :=
  ⟨0, 0, 0, savedCursorOf saved, fun _ => 0, fun _ => 0, [], []⟩

/-- `itemsPerType = Math.floor(maxItems / 3)` — JavaScript float division
followed by `Math.floor`. -/
def itemsPerType (maxItems : Nat) : Nat :=
  ⌊(maxItems : ℚ) / 3⌋₊

/-- One per-type block of the round (sync-all.ts lines 84-119, repeated for
collections and posts): if the type is below its share and its cursor is not
`undefined`, invoke its individual sync function; on success accumulate its
statistics, advance the per-type cursor to the returned `nextCursor`, persist
that cursor, and set `hasProgress`; on failure count one error and set the
per-type cursor to `undefined` so the type is never tried again this run
(`hasProgress` is left as it was). -/
def entityStep (env : AllEnv) (share : Nat) (st : AllState) (hasProgress : Bool)
    (t : Entity) : AllState × Bool :=
  if st.fetched t < share ∧ st.cursor t ≠ none then
    match env.subResult t (st.subCalls t) with
    | Except.ok sub =>
      (⟨st.totalFetched + sub.totalFetched,
        st.totalSaved + sub.totalSaved,
        st.errors + sub.errors,
        setEntity st.cursor t sub.nextCursor,
        setEntity st.fetched t (st.fetched t + sub.totalFetched),
        setEntity st.subCalls t (st.subCalls t + 1),
        st.calls ++ [(t, true)],
        st.cursorWrites ++ [(t, sub.nextCursor)]⟩, true)
    | Except.error _ =>
      ({ st with
          errors := st.errors + 1,
          cursor := setEntity st.cursor t none,
          subCalls := setEntity st.subCalls t (st.subCalls t + 1),
          calls := st.calls ++ [(t, false)] }, hasProgress)
  else (st, hasProgress)

/-- One full round: topics, then collections, then posts, threading
`hasProgress` (initialized to `false` at the top of each round). -/
def roundStep (env : AllEnv) (share : Nat) (st : AllState) : AllState × Bool :=
  let r1 := entityStep env share st false Entity.topics
  let r2 := entityStep env share r1.1 r1.2 Entity.collections
  entityStep env share r2.1 r2.2 Entity.posts

/-- The `while (topicsFetched < itemsPerType || collectionsFetched <
itemsPerType || postsFetched < itemsPerType)` loop with its
`if (!hasProgress) break` (sync-all.ts lines 80-221).  The returned flag is
`true` when the loop exited through the source's own exits (condition false or
no-progress break) and `false` when the fuel ran out first. -/
def syncAllLoop (env : AllEnv) (share : Nat) : Nat → AllState → AllState × Bool
  | 0, st => (st, false)
  | fuel + 1, st =>
    if st.fetched Entity.topics < share ∨ st.fetched Entity.collections < share ∨
        st.fetched Entity.posts < share then
      let r := roundStep env share st
      if r.2 then syncAllLoop env share fuel r.1 else (r.1, true)
    else (st, true)

/-- `syncAll(fetcher, repository, options, logger)`: load the saved cursors,
compute the per-type share from `maxItems` (default 100), and run the
round-robin loop from the initial state. -/
def syncAll (env : AllEnv) (saved : Option Cursor.CursorState)
    (options : Sync.SyncOptions) (fuel : Nat) : AllState × Bool :=
  syncAllLoop env (itemsPerType (orDefaultNat options.maxItems 100)) fuel
    (initAllState saved)

/-- No sub-sync call to entity `t` occurs after a failed call to `t`. -/
def noCallAfterError (t : Entity) : List (Entity × Bool) → Bool
  | [] => true
  | (u, success) :: rest =>
    if u == t && !success then rest.all (fun x => !(x.1 == t))
    else noCallAfterError t rest

/-- The exhaustion invariant tying the call trace to the cursor variables:
every type with a failed call has an `undefined` cursor, and no type is called
after one of its calls failed. -/
def CallsInvariant (st : AllState) : Prop :=
  ∀ t, ((t, false) ∈ st.calls → st.cursor t = none) ∧
    noCallAfterError t st.calls = true

end SyncAll

/-! ## Claims C9 and C10 -/

/-- Unfolding of one round (zeta-expansion of `roundStep`). -/
theorem roundStep_eq (env : SyncAll.AllEnv) (share : Nat) (st : SyncAll.AllState) :
    SyncAll.roundStep env share st
      = SyncAll.entityStep env share
          (SyncAll.entityStep env share
            (SyncAll.entityStep env share st false SyncAll.Entity.topics).1
            (SyncAll.entityStep env share st false SyncAll.Entity.topics).2
            SyncAll.Entity.collections).1
          (SyncAll.entityStep env share
            (SyncAll.entityStep env share st false SyncAll.Entity.topics).1
            (SyncAll.entityStep env share st false SyncAll.Entity.topics).2
            SyncAll.Entity.collections).2
          SyncAll.Entity.posts := rfl

/-- Unfolding of one loop iteration (zeta-expansion of `syncAllLoop`). -/
theorem syncAllLoop_succ (env : SyncAll.AllEnv) (share fuel : Nat)
    (st : SyncAll.AllState) :
    SyncAll.syncAllLoop env share (fuel + 1) st
      = if st.fetched SyncAll.Entity.topics < share ∨
            st.fetched SyncAll.Entity.collections < share ∨
            st.fetched SyncAll.Entity.posts < share then
          if (SyncAll.roundStep env share st).2 then
            SyncAll.syncAllLoop env share fuel (SyncAll.roundStep env share st).1
          else ((SyncAll.roundStep env share st).1, true)
        else (st, true) := rfl

/-- A per-type block is a no-op for a type whose cursor is `undefined`. -/
theorem entityStep_skip (env : SyncAll.AllEnv) (share : Nat)
    (st : SyncAll.AllState) (p : Bool) (t : SyncAll.Entity)
    (h : st.cursor t = none) :
    SyncAll.entityStep env share st p t = (st, p) := by
  simp [SyncAll.entityStep, h]

/-- Appending a call to an entity that has no failed call yet (or is a
different entity) preserves `noCallAfterError`. -/
theorem noCallAfterError_append (t u : SyncAll.Entity) (b : Bool)
    (l : List (SyncAll.Entity × Bool))
    (hl : SyncAll.noCallAfterError t l = true)
    (hu : (t, false) ∈ l → u ≠ t) :
    SyncAll.noCallAfterError t (l ++ [(u, b)]) = true := by
  induction l with
  | nil =>
    simp [SyncAll.noCallAfterError]
  | cons hd tl ih =>
    obtain ⟨v, c⟩ := hd
    simp only [List.cons_append, SyncAll.noCallAfterError] at hl ⊢
    by_cases hvc : (v == t && !c) = true
    · rw [if_pos hvc] at hl ⊢
      have hv : v = t := by
        have := Bool.and_elim_left hvc
        exact beq_iff_eq.1 this
      have hc : c = false := by
        have := Bool.and_elim_right hvc
        simpa using this
      have hut : u ≠ t := hu (by rw [hv, hc] at *; exact List.mem_cons_self _ _)
      have happ : tl.append [(u, b)] = tl ++ [(u, b)] := rfl
      rw [happ, List.all_append, Bool.and_eq_true]
      exact ⟨hl, by simp [hut]⟩
    · rw [if_neg hvc] at hl ⊢
      exact ih hl (fun hm => hu (List.mem_cons_of_mem _ hm))

/-- One per-type block preserves the exhaustion invariant. -/
theorem entityStep_calls_invariant (env : SyncAll.AllEnv) (share : Nat)
    (st : SyncAll.AllState) (p : Bool) (u : SyncAll.Entity)
    (hst : SyncAll.CallsInvariant st) :
    SyncAll.CallsInvariant (SyncAll.entityStep env share st p u).1 := by
  by_cases hguard : st.fetched u < share ∧ st.cursor u ≠ none
  · have hu : ∀ t, (t, false) ∈ st.calls → u ≠ t := by
      intro t hmem heq
      exact hguard.2 (heq ▸ (hst t).1 hmem)
    cases hres : env.subResult u (st.subCalls u) with
    | ok sub =>
      intro t
      have hstep : (SyncAll.entityStep env share st p u).1
          = ⟨st.totalFetched + sub.totalFetched, st.totalSaved + sub.totalSaved,
             st.errors + sub.errors,
             SyncAll.setEntity st.cursor u sub.nextCursor,
             SyncAll.setEntity st.fetched u (st.fetched u + sub.totalFetched),
             SyncAll.setEntity st.subCalls u (st.subCalls u + 1),
             st.calls ++ [(u, true)], st.cursorWrites ++ [(u, sub.nextCursor)]⟩ := by
        simp [SyncAll.entityStep, hguard, hres]
      rw [hstep]
      constructor
      · intro hmem
        simp only [List.mem_append, List.mem_singleton, Prod.mk.injEq] at hmem
        rcases hmem with hmem | ⟨_, hfalse⟩
        · have hne : t ≠ u := fun heq => (hu t hmem) heq.symm
          simp only [SyncAll.setEntity, if_neg hne]
          exact (hst t).1 hmem
        · simp at hfalse
      · exact noCallAfterError_append t u true st.calls (hst t).2 (hu t)
    | error e =>
      intro t
      have hstep : (SyncAll.entityStep env share st p u).1
          = { st with
                errors := st.errors + 1,
                cursor := SyncAll.setEntity st.cursor u none,
                subCalls := SyncAll.setEntity st.subCalls u (st.subCalls u + 1),
                calls := st.calls ++ [(u, false)] } := by
        simp [SyncAll.entityStep, hguard, hres]
      rw [hstep]
      constructor
      · intro hmem
        simp only [List.mem_append, List.mem_singleton, Prod.mk.injEq] at hmem
        by_cases htu : t = u
        · simp [SyncAll.setEntity, htu]
        · rcases hmem with hmem | ⟨htu2, _⟩
          · simp only [SyncAll.setEntity, if_neg htu]
            exact (hst t).1 hmem
          · exact absurd htu2 htu
      · exact noCallAfterError_append t u false st.calls (hst t).2 (hu t)
  · have hstep : SyncAll.entityStep env share st p u = (st, p) := by
      unfold SyncAll.entityStep
      rw [if_neg hguard]
    rw [hstep]
    exact hst

/-- One full round preserves the exhaustion invariant. -/
theorem roundStep_calls_invariant (env : SyncAll.AllEnv) (share : Nat)
    (st : SyncAll.AllState) (hst : SyncAll.CallsInvariant st) :
    SyncAll.CallsInvariant (SyncAll.roundStep env share st).1 := by
  rw [roundStep_eq]
  exact entityStep_calls_invariant env share _ _ SyncAll.Entity.posts
    (entityStep_calls_invariant env share _ _ SyncAll.Entity.collections
      (entityStep_calls_invariant env share st false SyncAll.Entity.topics hst))

/-- The whole round-robin loop preserves the exhaustion invariant. -/
theorem syncAllLoop_calls_invariant (env : SyncAll.AllEnv) (share : Nat) :
    ∀ (fuel : Nat) (st : SyncAll.AllState), SyncAll.CallsInvariant st →
      SyncAll.CallsInvariant (SyncAll.syncAllLoop env share fuel st).1 := by
  intro fuel
  induction fuel with
  | zero => intro st h; exact h
  | succ f ih =>
    intro st h
    rw [syncAllLoop_succ]
    by_cases hcond : st.fetched SyncAll.Entity.topics < share ∨
        st.fetched SyncAll.Entity.collections < share ∨
        st.fetched SyncAll.Entity.posts < share
    · rw [if_pos hcond]
      by_cases hp : (SyncAll.roundStep env share st).2 = true
      · rw [if_pos hp]
        exact ih _ (roundStep_calls_invariant env share st h)
      · rw [if_neg hp]
        exact roundStep_calls_invariant env share st h
    · rw [if_neg hcond]
      exact h

/-- When the loop exits through the source's own exits, either every type has
reached its share or the final state is the outcome of a round that made no
progress. -/
theorem syncAllLoop_stop (env : SyncAll.AllEnv) (share : Nat) :
    ∀ (fuel : Nat) (st : SyncAll.AllState),
      (SyncAll.syncAllLoop env share fuel st).2 = true →
      (share ≤ (SyncAll.syncAllLoop env share fuel st).1.fetched SyncAll.Entity.topics ∧
       share ≤ (SyncAll.syncAllLoop env share fuel st).1.fetched SyncAll.Entity.collections ∧
       share ≤ (SyncAll.syncAllLoop env share fuel st).1.fetched SyncAll.Entity.posts) ∨
      (∃ prev : SyncAll.AllState,
        (SyncAll.syncAllLoop env share fuel st).1 = (SyncAll.roundStep env share prev).1 ∧
        (SyncAll.roundStep env share prev).2 = false) := by
  intro fuel
  induction fuel with
  | zero =>
    intro st h
    exact absurd h (by simp [SyncAll.syncAllLoop])
  | succ f ih =>
    intro st h
    rw [syncAllLoop_succ] at h ⊢
    by_cases hcond : st.fetched SyncAll.Entity.topics < share ∨
        st.fetched SyncAll.Entity.collections < share ∨
        st.fetched SyncAll.Entity.posts < share
    · rw [if_pos hcond] at h ⊢
      by_cases hp : (SyncAll.roundStep env share st).2 = true
      · rw [if_pos hp] at h ⊢
        exact ih _ h
      · rw [if_neg hp] at h ⊢
        right
        exact ⟨st, rfl, Bool.not_eq_true _ ▸ hp⟩
    · rw [if_neg hcond] at h ⊢
      left
      push_neg at hcond
      exact ⟨hcond.1, hcond.2.1, hcond.2.2⟩

/-- `Math.floor(maxItems / 3)` in JavaScript float division agrees with
natural-number division. -/
theorem itemsPerType_eq (m : Nat) : SyncAll.itemsPerType m = m / 3 := by
  unfold SyncAll.itemsPerType
  rw [Nat.floor_div_ofNat, Nat.floor_natCast]

/-- The initial state satisfies the exhaustion invariant. -/
theorem initAllState_calls_invariant (saved : Option Cursor.CursorState) :
    SyncAll.CallsInvariant (SyncAll.initAllState saved) := by
  intro t
  exact ⟨fun hmem => absurd hmem (List.not_mem_nil _), rfl⟩

/-- **C9.**  In "sync all" mode over the three entity types: the per-type
share is `itemsPerType = floor(maxItems / 3)`; an entity type whose sub-sync
returns an error is marked exhausted for the rest of the run — no later
sub-sync call to that type occurs in the trace — while the other types
continue; and whenever the round-robin loop stops on its own (`hterm`), either
every type has reached its share or the final state is that of a full round
that made no progress. -/
theorem syncAll_round_robin (env : SyncAll.AllEnv)
    (saved : Option Cursor.CursorState) (options : Sync.SyncOptions)
    (fuel : Nat) (m : Nat) (t : SyncAll.Entity)
    (hterm : (SyncAll.syncAll env saved options fuel).2 = true) :
    SyncAll.itemsPerType m = m / 3 ∧
    SyncAll.noCallAfterError t (SyncAll.syncAll env saved options fuel).1.calls
        = true ∧
    ((SyncAll.itemsPerType (orDefaultNat options.maxItems 100)
        ≤ (SyncAll.syncAll env saved options fuel).1.fetched SyncAll.Entity.topics ∧
      SyncAll.itemsPerType (orDefaultNat options.maxItems 100)
        ≤ (SyncAll.syncAll env saved options fuel).1.fetched SyncAll.Entity.collections ∧
      SyncAll.itemsPerType (orDefaultNat options.maxItems 100)
        ≤ (SyncAll.syncAll env saved options fuel).1.fetched SyncAll.Entity.posts) ∨
     (∃ prev : SyncAll.AllState,
        (SyncAll.syncAll env saved options fuel).1
            = (SyncAll.roundStep env
                (SyncAll.itemsPerType (orDefaultNat options.maxItems 100)) prev).1 ∧
        (SyncAll.roundStep env
            (SyncAll.itemsPerType (orDefaultNat options.maxItems 100)) prev).2
          = false)) := by
  refine ⟨itemsPerType_eq m, ?_, ?_⟩
  · exact (syncAllLoop_calls_invariant env _ fuel _
      (initAllState_calls_invariant saved) t).2
  · exact syncAllLoop_stop env _ fuel _ hterm

/-- An environment whose every sub-sync invocation fails. -/
def failingAllEnv : SyncAll.AllEnv := ⟨fun _ _ => Except.error "api down"⟩

/-- Witness for C9: with `maxItems = 9` the share is 3, and in a run where the
topics sub-sync fails in round one (the other types having no cursor), no
further topics call occurs. -/
theorem syncAll_round_robin_witness :
    SyncAll.itemsPerType 9 = 3 ∧
    SyncAll.noCallAfterError SyncAll.Entity.topics
        (SyncAll.syncAll failingAllEnv (some ⟨some "t0", none, none, "stamp"⟩)
          ⟨none, some 9, none⟩ 2).1.calls = true :=
  ⟨(syncAll_round_robin failingAllEnv (some ⟨some "t0", none, none, "stamp"⟩)
      ⟨none, some 9, none⟩ 2 9 SyncAll.Entity.topics
      (by unfold SyncAll.syncAll; rw [itemsPerType_eq]; decide)).1,
   (syncAll_round_robin failingAllEnv (some ⟨some "t0", none, none, "stamp"⟩)
      ⟨none, some 9, none⟩ 2 9 SyncAll.Entity.topics
      (by unfold SyncAll.syncAll; rw [itemsPerType_eq]; decide)).2.1⟩

/-- **C10.**  When no cursor state has ever been persisted (the loaded cursor
state is absent), `syncAll` issues no sub-sync calls at all: every per-type
cursor starts `undefined`, the `cursor !== undefined` guard skips every entity
type, the first round makes no progress, and the call returns through the
source's own exit with `totalFetched = 0`, `totalSaved = 0` and
`errors = 0`. -/
theorem syncAll_no_cursor_state (env : SyncAll.AllEnv)
    (options : Sync.SyncOptions) (fuel : Nat) (h : 1 ≤ fuel) :
    (SyncAll.syncAll env none options fuel).2 = true ∧
    (SyncAll.syncAll env none options fuel).1.calls = [] ∧
    (SyncAll.syncAll env none options fuel).1.cursorWrites = [] ∧
    (SyncAll.syncAll env none options fuel).1.totalFetched = 0 ∧
    (SyncAll.syncAll env none options fuel).1.totalSaved = 0 ∧
    (SyncAll.syncAll env none options fuel).1.errors = 0 := by
  obtain ⟨f, rfl⟩ : ∃ f, fuel = f + 1 := ⟨fuel - 1, by omega⟩
  have hcur : ∀ t, (SyncAll.initAllState none).cursor t = none := by
    intro t
    cases t <;> rfl
  have hround : ∀ share,
      SyncAll.roundStep env share (SyncAll.initAllState none)
        = (SyncAll.initAllState none, false) := by
    intro share
    rw [roundStep_eq, entityStep_skip env share _ false SyncAll.Entity.topics (hcur _)]
    rw [entityStep_skip env share _ false SyncAll.Entity.collections (hcur _)]
    rw [entityStep_skip env share _ false SyncAll.Entity.posts (hcur _)]
  have hrun : SyncAll.syncAll env none options (f + 1)
      = (SyncAll.initAllState none, true) := by
    unfold SyncAll.syncAll
    rw [syncAllLoop_succ]
    by_cases hcond : (SyncAll.initAllState none).fetched SyncAll.Entity.topics
          < SyncAll.itemsPerType (orDefaultNat options.maxItems 100) ∨
        (SyncAll.initAllState none).fetched SyncAll.Entity.collections
          < SyncAll.itemsPerType (orDefaultNat options.maxItems 100) ∨
        (SyncAll.initAllState none).fetched SyncAll.Entity.posts
          < SyncAll.itemsPerType (orDefaultNat options.maxItems 100)
    · rw [if_pos hcond, hround]
      simp
    · rw [if_neg hcond]
  rw [hrun]
  exact ⟨rfl, rfl, rfl, rfl, rfl, rfl⟩

/-- Witness for C10 at a concrete environment and fuel 1. -/
theorem syncAll_no_cursor_state_witness :
    (SyncAll.syncAll failingAllEnv none ⟨none, none, none⟩ 1).2 = true ∧
    (SyncAll.syncAll failingAllEnv none ⟨none, none, none⟩ 1).1.calls = [] ∧
    (SyncAll.syncAll failingAllEnv none ⟨none, none, none⟩ 1).1.cursorWrites = [] ∧
    (SyncAll.syncAll failingAllEnv none ⟨none, none, none⟩ 1).1.totalFetched = 0 ∧
    (SyncAll.syncAll failingAllEnv none ⟨none, none, none⟩ 1).1.totalSaved = 0 ∧
    (SyncAll.syncAll failingAllEnv none ⟨none, none, none⟩ 1).1.errors = 0 :=
  syncAll_no_cursor_state failingAllEnv ⟨none, none, none⟩ 1 (by decide)
